import Mathlib

/-!
Verification of the SmartBatching core (`src/simple_app.py`).

The embedding below mirrors the Python source: the enumerations
`PrintType`, `PaperType`, `MachineType`, the `Order` and `Batch`
dataclasses, `SimpleSmartBatching.process`, and the arithmetic parts of
`SimpleVisualizer.plot_gantt` / `plot_comparison` (the timing model and
the FIFO-comparison figures; the matplotlib drawing itself carries no
logic beyond these numbers).

Python `int` is embedded as `Int`, Python true division as division in
`ℚ`, and a Python `ZeroDivisionError` as `none` in an `Option` result.
-/

namespace SmartBatching

inductive PrintType where
  | BW
  | COLOR
deriving DecidableEq, Repr, Inhabited

inductive PaperType where
  | PLAIN
  | COATED
  | RECYCLED
deriving DecidableEq, Repr, Inhabited

inductive MachineType where
  | ROLL
  | SHEET
deriving DecidableEq, Repr, Inhabited

/-- The `Order` dataclass.  `deadline` (a `datetime`) is embedded as an
abstract integer timestamp and the `format` tuple as a pair; neither is
read by any code under verification.  `book_thickness` is `Option Int`
because the UI passes `None` for it. -/
structure Order where
  id : String
  machine_type : MachineType
  print_type : PrintType
  paper_type : PaperType
  roll_width : Int
  format : Int × Int
  book_thickness : Option Int
  deadline : Int
  quantity : Int
  priority : Int := 0
deriving DecidableEq, Repr, Inhabited

/-- The `Batch` dataclass. -/
structure Batch where
  id : String
  orders : List Order
  print_type : PrintType
  paper_type : PaperType
deriving DecidableEq, Repr, Inhabited

/-- Model of the property `Batch.total_quantity`: the sum of the
quantities of the member orders. -/
def Batch.total_quantity (b : Batch) : Int :=
  (b.orders.map Order.quantity).sum

/-- Model of the property `Batch.avg_priority`: sum of priorities over
length if the member list is non-empty, else 0 (Python true division,
hence `ℚ`). -/
def Batch.avg_priority (b : Batch) : ℚ :=
  if b.orders ≠ [] then
    ((b.orders.map Order.priority).sum : ℚ) / (b.orders.length : ℚ)
  else 0

/-- Python formatting with format code 04d applied to a non-negative
argument: decimal digits, left-padded with zeros to a minimum width
of 4. -/
def pad4 (n : Nat) : String :=
  let s := toString n
  String.mk (List.replicate (4 - s.length) '0') ++ s

/-- The metrics dictionary built at the end of `process`.
`len(batches) - 1` is Python `int` arithmetic, hence `Int` (it is `-1`
when there are no batches). -/
structure Metrics where
  total_batches : Nat
  total_changeovers : Int
  total_changeover_time_minutes : Int
deriving DecidableEq, Repr

/-- The dictionary returned by `process`. -/
structure ProcessResult where
  batches : List Batch
  total_orders : Nat
  metrics : Metrics
deriving DecidableEq, Repr

/-- Model of `SimpleSmartBatching.process`.  The Python loop
`for print_type in [PrintType.COLOR, PrintType.BW]` has exactly two
iterations and is unrolled; `batch_id` starts at 1 and is incremented
after each emitted batch, which the `nextId` bookkeeping reproduces. -/
def process (orders : List Order) : ProcessResult :=
  let urgent := orders.filter fun o => decide (0 < o.priority)
  let urgentBatches : List Batch :=
    if urgent = [] then []
    else [{ id := "BATCH-" ++ pad4 1, orders := urgent,
            print_type := urgent.headI.print_type,
            paper_type := urgent.headI.paper_type }]
  let normal := orders.filter fun o => decide (o.priority = 0)
  let colorId := 1 + urgentBatches.length
  let color := normal.filter fun o => decide (o.print_type = PrintType.COLOR)
  let colorBatches : List Batch :=
    if color = [] then []
    else [{ id := "BATCH-" ++ pad4 colorId, orders := color,
            print_type := PrintType.COLOR,
            paper_type := color.headI.paper_type }]
  let bwId := colorId + colorBatches.length
  let bw := normal.filter fun o => decide (o.print_type = PrintType.BW)
  let bwBatches : List Batch :=
    if bw = [] then []
    else [{ id := "BATCH-" ++ pad4 bwId, orders := bw,
            print_type := PrintType.BW,
            paper_type := bw.headI.paper_type }]
  let batches := urgentBatches ++ colorBatches ++ bwBatches
  { batches := batches,
    total_orders := orders.length,
    metrics :=
      { total_batches := batches.length,
        total_changeovers := (batches.length : Int) - 1,
        total_changeover_time_minutes := ((batches.length : Int) - 1) * 20 } }

/-! ### Timing model of `SimpleVisualizer.plot_gantt`

Times are rationals measured in hours from an arbitrary reference
(`current_time = datetime.now()` in the source). -/

/-- Processing duration of a batch in hours:
`timedelta(hours=batch.total_quantity / 1000)` in the source. -/
def duration (b : Batch) : ℚ :=
  (b.total_quantity : ℚ) / 1000

/-- The changeover gap `timedelta(minutes=20)` converted to hours. -/
def changeoverHours : ℚ := 20 / 60

/-- Start times of the batches after the first: each of these is
preceded by the 20-minute changeover bar (`if i > 0` in the source). -/
def ganttAux : List Batch → ℚ → List ℚ
  | [], _ => []
  | b :: rest, t =>
    let t1 := t + changeoverHours
    t1 :: ganttAux rest (t1 + duration b)

/-- Start time of every batch bar drawn by `plot_gantt`, in emission
order: the first batch starts at the reference time with no preceding
changeover; every later batch is preceded by the changeover gap. -/
def ganttStarts (batches : List Batch) (ref : ℚ) : List ℚ :=
  match batches with
  | [] => []
  | b :: rest => ref :: ganttAux rest (ref + duration b)

/-! ### Comparison figures of `SimpleVisualizer.plot_comparison` -/

/-- Baseline changeover minutes, line 163 of the source:
`fifo_time = (total - 1) * 20`, unclamped Python `int` arithmetic. -/
def fifo_time (r : ProcessResult) : Int :=
  ((r.total_orders : Int) - 1) * 20

/-- The FIFO bar height `total - 1` (line 170): baseline changeover
count. -/
def fifo_changeovers (r : ProcessResult) : Int :=
  (r.total_orders : Int) - 1

/-- Model of `smart_time`: the total-changeover-time-minutes entry of
the metrics dictionary. -/
def smart_time (r : ProcessResult) : Int :=
  r.metrics.total_changeover_time_minutes

/-- Model of `saved = fifo_time - smart_time`. -/
def saved (r : ProcessResult) : Int :=
  fifo_time r - smart_time r

/-- The saved percentage `saved / fifo_time * 100` on line 183 of the
source: Python true division, which raises `ZeroDivisionError` when
`fifo_time == 0`; the raise is embedded as `none`. -/
def saved_pct (r : ProcessResult) : Option ℚ :=
  if fifo_time r = 0 then none
  else some ((saved r : ℚ) / (fifo_time r : ℚ) * 100)

/-! ### Named forms of the partitions built inside `process` -/

/-- The urgent partition `[o for o in orders if o.priority > 0]`. -/
def urgentOrders (orders : List Order) : List Order :=
  orders.filter fun o => decide (0 < o.priority)

/-- The normal partition `[o for o in orders if o.priority == 0]`. -/
def normalOrders (orders : List Order) : List Order :=
  orders.filter fun o => decide (o.priority = 0)

/-- The normal color orders, in original relative order. -/
def colorOrders (orders : List Order) : List Order :=
  (normalOrders orders).filter fun o => decide (o.print_type = PrintType.COLOR)

/-- The normal monochrome orders, in original relative order. -/
def bwOrders (orders : List Order) : List Order :=
  (normalOrders orders).filter fun o => decide (o.print_type = PrintType.BW)

/-! ### Concrete sample orders

These mirror the three example orders the UI seeds the session with
(identifiers URGENT, COLOR, BW), plus one order with a negative
priority.  They are used to instantiate the theorems below at concrete
inputs. -/

/-- The sample normal monochrome order (identifier BW in the UI seed
data). -/
def sampleBW : Order :=
  { id := "BW", machine_type := MachineType.ROLL,
    print_type := PrintType.BW, paper_type := PaperType.PLAIN,
    roll_width := 1000, format := (210, 297), book_thickness := none,
    deadline := 8, quantity := 7000, priority := 0 }

/-- The sample normal color order (identifier COLOR in the UI seed
data). -/
def sampleColor : Order :=
  { id := "COLOR", machine_type := MachineType.ROLL,
    print_type := PrintType.COLOR, paper_type := PaperType.COATED,
    roll_width := 1000, format := (210, 297), book_thickness := none,
    deadline := 7, quantity := 5000, priority := 0 }

/-- The sample urgent order (identifier URGENT in the UI seed data). -/
def sampleUrgent : Order :=
  { id := "URGENT", machine_type := MachineType.ROLL,
    print_type := PrintType.BW, paper_type := PaperType.RECYCLED,
    roll_width := 1000, format := (210, 297), book_thickness := none,
    deadline := 2, quantity := 15000, priority := 2 }

/-- An order with negative priority: `process` places it in neither the
urgent partition (`priority > 0`) nor the normal one
(`priority == 0`). -/
def sampleNegative : Order :=
  { id := "NEG", machine_type := MachineType.ROLL,
    print_type := PrintType.BW, paper_type := PaperType.PLAIN,
    roll_width := 1000, format := (210, 297), book_thickness := none,
    deadline := 8, quantity := 7000, priority := -1 }

/-- A concrete one-order batch of total quantity 1000. -/
def sampleBatch1 : Batch :=
  { id := "BATCH-0001", orders := [{ sampleBW with quantity := 1000 }],
    print_type := PrintType.BW, paper_type := PaperType.PLAIN }

/-- A concrete one-order color batch. -/
def sampleBatch2 : Batch :=
  { id := "BATCH-0002", orders := [sampleColor],
    print_type := PrintType.COLOR, paper_type := PaperType.COATED }

/-! ### Claims about the metrics and the comparison figures -/

/-- C1 counterexample: on the empty order list `process` reports
`total_changeovers = -1`, not `max(total_batches - 1, 0) = 0` as the
claim states. -/
theorem C1_counterexample :
    (process ([] : List Order)).metrics.total_changeovers ≠
      max (((process ([] : List Order)).metrics.total_batches : Int) - 1) 0 := by
  decide

/-- C1 (amended): for every input order list the metrics satisfy
`total_changeovers = total_batches - 1` with no clamping at 0, and
`total_changeover_time = total_changeovers * 20` minutes; hence both
are 0 for one batch, while for zero batches they are `-1` and `-20`. -/
theorem C1_changeover_metrics (orders : List Order) :
    ((process orders).metrics.total_changeovers
        = ((process orders).metrics.total_batches : Int) - 1)
    ∧ ((process orders).metrics.total_changeover_time_minutes
        = (process orders).metrics.total_changeovers * 20)
    ∧ ((process orders).metrics.total_batches = 1 →
        (process orders).metrics.total_changeovers = 0
        ∧ (process orders).metrics.total_changeover_time_minutes = 0)
    ∧ ((process orders).metrics.total_batches = 0 →
        (process orders).metrics.total_changeovers = -1
        ∧ (process orders).metrics.total_changeover_time_minutes = -20) := by
  have e1 : (process orders).metrics.total_changeovers
      = ((process orders).metrics.total_batches : Int) - 1 := rfl
  have e2 : (process orders).metrics.total_changeover_time_minutes
      = (((process orders).metrics.total_batches : Int) - 1) * 20 := rfl
  refine ⟨e1, by rw [e1, e2], ?_, ?_⟩
  · intro h
    rw [e1, e2, h]
    norm_num
  · intro h
    rw [e1, e2, h]
    norm_num

/-- C1 witness: the amended claim instantiated on a single-order input
(one batch, both figures 0) and on the empty input (zero batches,
figures -1 and -20). -/
theorem C1_changeover_metrics_witness :
    ((process [sampleBW]).metrics.total_changeovers = 0
      ∧ (process [sampleBW]).metrics.total_changeover_time_minutes = 0)
    ∧ ((process ([] : List Order)).metrics.total_changeovers = -1
      ∧ (process ([] : List Order)).metrics.total_changeover_time_minutes = -20) :=
  ⟨(C1_changeover_metrics [sampleBW]).2.2.1 (by decide),
   (C1_changeover_metrics []).2.2.2 (by decide)⟩

/-- C2 counterexample: on a single-order input the saved-percentage
computation divides `saved` by `fifo_time = (1 - 1) * 20 = 0` and raises
`ZeroDivisionError` (embedded as `none`); it does not return the defined
value 0 the claim states. -/
theorem C2_counterexample :
    saved_pct (process [sampleBW]) = none
    ∧ saved_pct (process [sampleBW]) ≠ some 0 := by
  have h : saved_pct (process [sampleBW]) = none := by
    norm_num [saved_pct, fifo_time, process, sampleBW]
  exact ⟨h, by rw [h]; exact Option.noConfusion⟩

/-- C2 (amended): the saved-percentage computation is not guarded
against a zero denominator.  With zero orders it happens to return 0
(the denominator is the nonzero value -20 and the numerator is 0), but
with exactly one order the denominator `(total_orders - 1) * 20` is 0
and the computation raises a division-by-zero error, embedded as
`none`. -/
theorem C2_saved_pct (orders : List Order) :
    (orders = [] → saved_pct (process orders) = some 0)
    ∧ (orders.length = 1 → saved_pct (process orders) = none) := by
  constructor
  · rintro rfl
    norm_num [saved_pct, saved, fifo_time, smart_time, process]
  · intro h
    have ht : (process orders).total_orders = 1 := h
    norm_num [saved_pct, fifo_time, ht]

/-- C2 witness: the amended claim instantiated on the empty input and on
a one-order input. -/
theorem C2_saved_pct_witness :
    saved_pct (process ([] : List Order)) = some 0
    ∧ saved_pct (process [sampleColor]) = none :=
  ⟨(C2_saved_pct []).1 rfl, (C2_saved_pct [sampleColor]).2 rfl⟩

/-- C3 counterexample: on the empty order list the comparison chart uses
`total_orders - 1 = -1` as the baseline changeover count, not
`max(total_orders - 1, 0) = 0` as the claim states. -/
theorem C3_counterexample :
    fifo_changeovers (process ([] : List Order)) ≠
      max (((process ([] : List Order)).total_orders : Int) - 1) 0 := by
  decide

/-- C3 (amended): for every input order list the baseline figures are
`fifo_changeovers = total_orders - 1` with no clamping at 0 (so `-1` for
zero orders), `total_orders` is the length of the input list, and
`fifo_time = fifo_changeovers * 20` minutes. -/
theorem C3_baseline (orders : List Order) :
    fifo_changeovers (process orders) = ((process orders).total_orders : Int) - 1
    ∧ (process orders).total_orders = orders.length
    ∧ fifo_time (process orders) = fifo_changeovers (process orders) * 20 :=
  ⟨rfl, rfl, rfl⟩

/-! ### The gantt timing model -/

/-- Once one batch has been placed, the remaining batches are laid out
exactly as a fresh layout would place them one changeover later. -/
lemma ganttAux_eq (bs : List Batch) (t : ℚ) :
    ganttAux bs t = ganttStarts bs (t + changeoverHours) := by
  cases bs with
  | nil => rfl
  | cons b rest => rfl

/-- Unfolding lemma: the first batch starts at the reference time and
the rest are laid out from the end of its bar plus the changeover. -/
lemma ganttStarts_cons (b : Batch) (rest : List Batch) (ref : ℚ) :
    ganttStarts (b :: rest) ref
      = ref :: ganttStarts rest (ref + duration b + changeoverHours) := by
  show ref :: ganttAux rest (ref + duration b) = _
  rw [ganttAux_eq]

/-- Every batch gets exactly one start time. -/
lemma ganttStarts_length (bs : List Batch) (ref : ℚ) :
    (ganttStarts bs ref).length = bs.length := by
  induction bs generalizing ref with
  | nil => rfl
  | cons b rest ih =>
    rw [ganttStarts_cons]
    simp [ih]

/-- The successive-starts recurrence, stated over optional indexing. -/
lemma ganttStarts_rec (bs : List Batch) (r : ℚ) (i : Nat)
    (h : i + 1 < bs.length) :
    (ganttStarts bs r)[i + 1]? =
      (ganttStarts bs r)[i]?.bind fun s =>
        bs[i]?.map fun b => s + duration b + changeoverHours := by
  induction bs generalizing r i with
  | nil => simp at h
  | cons b rest ih =>
    rw [ganttStarts_cons]
    cases i with
    | zero =>
      cases rest with
      | nil => simp at h
      | cons c rest2 =>
        rw [ganttStarts_cons]
        simp
    | succ j =>
      have h2 : j + 1 < rest.length := by
        simpa using h
      simp only [List.getElem?_cons_succ]
      exact ih _ j h2

/-- C7: in the derived schedule the first batch starts at the reference
time with no preceding changeover, each start time in the layout of
batch `i + 1` equals the start of batch `i` plus its duration plus the
fixed changeover (20 minutes, i.e. 20/60 hours), and a batch of total
quantity 1000 has duration exactly 1 hour (throughput 1000 units per
hour). -/
theorem C7_schedule (batches : List Batch) (ref : ℚ) :
    (ganttStarts batches ref).length = batches.length
    ∧ (∀ b rest, batches = b :: rest →
        (ganttStarts batches ref).head? = some ref)
    ∧ (∀ i, i + 1 < batches.length →
        (ganttStarts batches ref)[i + 1]? =
          (ganttStarts batches ref)[i]?.bind fun s =>
            batches[i]?.map fun b => s + duration b + changeoverHours)
    ∧ (∀ b : Batch, b.total_quantity = 1000 → duration b = 1)
    ∧ changeoverHours = 20 / 60 := by
  refine ⟨ganttStarts_length batches ref, ?_, ?_, ?_, rfl⟩
  · rintro b rest rfl
    rw [ganttStarts_cons]
    rfl
  · exact ganttStarts_rec batches ref
  · intro b hb
    rw [duration, hb]
    norm_num

/-! ### Partitioning claims -/

/-- Closed form of the batch list produced by `process`: the optional
urgent batch, then the optional color batch, then the optional
monochrome batch, with sequential ids. -/
lemma process_batches_eq (orders : List Order) :
    (process orders).batches =
      (if urgentOrders orders = [] then [] else
        [{ id := "BATCH-" ++ pad4 1, orders := urgentOrders orders,
           print_type := (urgentOrders orders).headI.print_type,
           paper_type := (urgentOrders orders).headI.paper_type }]) ++
      ((if colorOrders orders = [] then [] else
        [{ id := "BATCH-" ++ pad4 (if urgentOrders orders = [] then 1 else 2),
           orders := colorOrders orders, print_type := PrintType.COLOR,
           paper_type := (colorOrders orders).headI.paper_type }]) ++
      (if bwOrders orders = [] then [] else
        [{ id := "BATCH-" ++
             pad4 ((if urgentOrders orders = [] then 1 else 2) +
               (if colorOrders orders = [] then 0 else 1)),
           orders := bwOrders orders, print_type := PrintType.BW,
           paper_type := (bwOrders orders).headI.paper_type }])) := by
  simp only [process, urgentOrders, normalOrders, colorOrders, bwOrders]
  split_ifs <;> rfl

/-- Counting an element that does not occur gives 0. -/
lemma count_zero_of_not_mem (l : List Order) (a : Order) (h : a ∉ l) :
    l.count a = 0 :=
  List.count_eq_zero.mpr h

/-- Counting inside a filter whose predicate rejects the element gives
0. -/
lemma count_filter_zero (l : List Order) (p : Order → Bool) (a : Order)
    (h : ¬ p a = true) : (l.filter p).count a = 0 :=
  List.count_eq_zero.mpr fun hmem => h (List.mem_filter.mp hmem).2

/-- When every priority is non-negative, the urgent, normal-color and
normal-monochrome partitions together are a permutation of the input
list. -/
lemma three_filters_perm (orders : List Order)
    (h : ∀ o ∈ orders, 0 ≤ o.priority) :
    (urgentOrders orders ++ (colorOrders orders ++ bwOrders orders)).Perm
      orders := by
  rw [List.perm_iff_count]
  intro a
  simp only [List.count_append, urgentOrders, colorOrders, bwOrders,
    normalOrders]
  by_cases hm : a ∈ orders
  · rcases lt_or_eq_of_le (h a hm) with hp | hp
    · have h1 : (orders.filter fun o => decide (0 < o.priority)).count a
          = orders.count a := List.count_filter (by simpa using hp)
      have hn : a ∉ orders.filter fun o => decide (o.priority = 0) := by
        simp only [List.mem_filter, decide_eq_true_eq]
        rintro ⟨-, hz⟩
        omega
      have h2 : ((orders.filter fun o => decide (o.priority = 0)).filter
          fun o => decide (o.print_type = PrintType.COLOR)).count a = 0 :=
        count_zero_of_not_mem _ _ fun hx => hn (List.mem_of_mem_filter hx)
      have h3 : ((orders.filter fun o => decide (o.priority = 0)).filter
          fun o => decide (o.print_type = PrintType.BW)).count a = 0 :=
        count_zero_of_not_mem _ _ fun hx => hn (List.mem_of_mem_filter hx)
      rw [h1, h2, h3]
      omega
    · have h1 : (orders.filter fun o => decide (0 < o.priority)).count a
          = 0 := count_filter_zero _ _ _ (by simp; omega)
      have hng : (orders.filter fun o => decide (o.priority = 0)).count a
          = orders.count a := List.count_filter (by simp; omega)
      cases hpt : a.print_type with
      | COLOR =>
        have h2 : ((orders.filter fun o => decide (o.priority = 0)).filter
            fun o => decide (o.print_type = PrintType.COLOR)).count a
            = orders.count a := by
          rw [List.count_filter (by simp [hpt]), hng]
        have h3 : ((orders.filter fun o => decide (o.priority = 0)).filter
            fun o => decide (o.print_type = PrintType.BW)).count a = 0 :=
          count_filter_zero _ _ _ (by simp [hpt])
        rw [h1, h2, h3]
        omega
      | BW =>
        have h2 : ((orders.filter fun o => decide (o.priority = 0)).filter
            fun o => decide (o.print_type = PrintType.COLOR)).count a = 0 :=
          count_filter_zero _ _ _ (by simp [hpt])
        have h3 : ((orders.filter fun o => decide (o.priority = 0)).filter
            fun o => decide (o.print_type = PrintType.BW)).count a
            = orders.count a := by
          rw [List.count_filter (by simp [hpt]), hng]
        rw [h1, h2, h3]
        omega
  · have h0 : orders.count a = 0 := count_zero_of_not_mem _ _ hm
    have h1 : (orders.filter fun o => decide (0 < o.priority)).count a = 0 :=
      count_zero_of_not_mem _ _ fun hx => hm (List.mem_of_mem_filter hx)
    have h2 : ((orders.filter fun o => decide (o.priority = 0)).filter
        fun o => decide (o.print_type = PrintType.COLOR)).count a = 0 :=
      count_zero_of_not_mem _ _ fun hx =>
        hm (List.mem_of_mem_filter (List.mem_of_mem_filter hx))
    have h3 : ((orders.filter fun o => decide (o.priority = 0)).filter
        fun o => decide (o.print_type = PrintType.BW)).count a = 0 :=
      count_zero_of_not_mem _ _ fun hx =>
        hm (List.mem_of_mem_filter (List.mem_of_mem_filter hx))
    rw [h0, h1, h2, h3]

/-- The member orders collected across all batches are the urgent
partition followed by the color and monochrome partitions. -/
lemma process_flatten (orders : List Order) :
    ((process orders).batches.map Batch.orders).flatten
      = urgentOrders orders ++ (colorOrders orders ++ bwOrders orders) := by
  rw [process_batches_eq]
  split_ifs <;> simp [*]

/-- C4: for every input list of well-formed orders (the data model
requires non-negative priorities), the member orders collected across
all batches returned by `process` are a permutation of the input list —
no loss, no duplication, identities preserved — and every returned
batch is non-empty. -/
theorem C4_partition (orders : List Order)
    (h : ∀ o ∈ orders, 0 ≤ o.priority) :
    (((process orders).batches.map Batch.orders).flatten).Perm orders
    ∧ ∀ b ∈ (process orders).batches, b.orders ≠ [] := by
  constructor
  · rw [process_flatten]
    exact three_filters_perm orders h
  · rw [process_batches_eq]
    split_ifs <;> simp_all

/-- C4 witness: the partition claim instantiated on the three seed
orders of the UI. -/
theorem C4_partition_witness :
    (∀ o ∈ [sampleUrgent, sampleColor, sampleBW], 0 ≤ o.priority)
    ∧ ((((process [sampleUrgent, sampleColor, sampleBW]).batches.map
          Batch.orders).flatten).Perm [sampleUrgent, sampleColor, sampleBW]
      ∧ ∀ b ∈ (process [sampleUrgent, sampleColor, sampleBW]).batches,
          b.orders ≠ []) :=
  ⟨by decide, C4_partition _ (by decide)⟩

/-- C7 witness: the schedule claim instantiated on a concrete two-batch
sequence starting at reference time 0. -/
theorem C7_schedule_witness :
    (ganttStarts [sampleBatch1, sampleBatch2] 0).head? = some 0
    ∧ (ganttStarts [sampleBatch1, sampleBatch2] 0)[0 + 1]? =
        ((ganttStarts [sampleBatch1, sampleBatch2] 0)[0]?.bind fun s =>
          ([sampleBatch1, sampleBatch2][0]?).map fun b =>
            s + duration b + changeoverHours)
    ∧ duration sampleBatch1 = 1 :=
  ⟨(C7_schedule [sampleBatch1, sampleBatch2] 0).2.1 sampleBatch1 [sampleBatch2] rfl,
   (C7_schedule [sampleBatch1, sampleBatch2] 0).2.2.1 0 (by decide),
   (C7_schedule [sampleBatch1, sampleBatch2] 0).2.2.2.1 sampleBatch1 (by decide)⟩

/-! ### Membership characterizations -/

/-- Membership in the urgent partition. -/
lemma mem_urgentOrders {orders : List Order} {o : Order} :
    o ∈ urgentOrders orders ↔ o ∈ orders ∧ 0 < o.priority := by
  simp [urgentOrders, List.mem_filter]

/-- Membership in the normal color partition. -/
lemma mem_colorOrders {orders : List Order} {o : Order} :
    o ∈ colorOrders orders ↔
      o ∈ orders ∧ o.priority = 0 ∧ o.print_type = PrintType.COLOR := by
  simp only [colorOrders, normalOrders, List.mem_filter, decide_eq_true_eq]
  tauto

/-- Membership in the normal monochrome partition. -/
lemma mem_bwOrders {orders : List Order} {o : Order} :
    o ∈ bwOrders orders ↔
      o ∈ orders ∧ o.priority = 0 ∧ o.print_type = PrintType.BW := by
  simp only [bwOrders, normalOrders, List.mem_filter, decide_eq_true_eq]
  tauto

/-- An order sits in some returned batch exactly when it sits in one of
the three partitions. -/
lemma exists_mem_batches (orders : List Order) (o : Order) :
    (∃ b ∈ (process orders).batches, o ∈ b.orders) ↔
      (o ∈ urgentOrders orders ∨ o ∈ colorOrders orders ∨
        o ∈ bwOrders orders) := by
  rw [process_batches_eq]
  constructor
  · rintro ⟨b, hb, ho⟩
    rcases List.mem_append.mp hb with h1 | h2
    · split_ifs at h1 <;>
        first
          | exact absurd h1 (List.not_mem_nil b)
          | · simp only [List.mem_singleton] at h1
              subst h1
              exact Or.inl ho
    · rcases List.mem_append.mp h2 with h3 | h4
      · split_ifs at h3 <;>
          first
            | exact absurd h3 (List.not_mem_nil b)
            | · simp only [List.mem_singleton] at h3
                subst h3
                exact Or.inr (Or.inl ho)
      · split_ifs at h4 <;>
          first
            | exact absurd h4 (List.not_mem_nil b)
            | · simp only [List.mem_singleton] at h4
                subst h4
                exact Or.inr (Or.inr ho)
  · rintro (ho | ho | ho)
    · have hne : urgentOrders orders ≠ [] := fun hc => by simp [hc] at ho
      rw [if_neg hne]
      exact ⟨_, List.mem_append.mpr (Or.inl (List.mem_singleton.mpr rfl)), ho⟩
    · have hne : colorOrders orders ≠ [] := fun hc => by simp [hc] at ho
      rw [if_neg hne]
      refine ⟨_, List.mem_append.mpr (Or.inr (List.mem_append.mpr (Or.inl
        (List.mem_singleton.mpr rfl)))), ho⟩
    · have hne : bwOrders orders ≠ [] := fun hc => by simp [hc] at ho
      rw [if_neg hne]
      refine ⟨_, List.mem_append.mpr (Or.inr (List.mem_append.mpr (Or.inr
        (List.mem_singleton.mpr rfl)))), ho⟩

/-- Every returned batch is built from a non-empty filter result. -/
lemma batch_orders_ne_nil (orders : List Order) :
    ∀ b ∈ (process orders).batches, b.orders ≠ [] := by
  rw [process_batches_eq]
  split_ifs <;> simp_all

/-- Any returned batch carries one of the three partitions as its member
list. -/
lemma batch_mem_cases (orders : List Order) (b : Batch)
    (hb : b ∈ (process orders).batches) :
    b.orders = urgentOrders orders
    ∨ (b.orders = colorOrders orders ∧ b.print_type = PrintType.COLOR)
    ∨ (b.orders = bwOrders orders ∧ b.print_type = PrintType.BW) := by
  rw [process_batches_eq] at hb
  rcases List.mem_append.mp hb with h1 | h2
  · split_ifs at h1 <;>
      first
        | exact absurd h1 (List.not_mem_nil b)
        | · simp only [List.mem_singleton] at h1
            subst h1
            exact Or.inl rfl
  · rcases List.mem_append.mp h2 with h3 | h4
    · split_ifs at h3 <;>
        first
          | exact absurd h3 (List.not_mem_nil b)
          | · simp only [List.mem_singleton] at h3
              subst h3
              exact Or.inr (Or.inl ⟨rfl, rfl⟩)
    · split_ifs at h4 <;>
        first
          | exact absurd h4 (List.not_mem_nil b)
          | · simp only [List.mem_singleton] at h4
              subst h4
              exact Or.inr (Or.inr ⟨rfl, rfl⟩)

/-- When some normal color order exists, a color batch is emitted. -/
lemma color_batch_exists (orders : List Order)
    (hne : colorOrders orders ≠ []) :
    ∃ b ∈ (process orders).batches,
      b.orders = colorOrders orders ∧ b.print_type = PrintType.COLOR := by
  rw [process_batches_eq]
  rw [if_neg hne]
  exact ⟨_, List.mem_append.mpr (Or.inr (List.mem_append.mpr (Or.inl
    (List.mem_singleton.mpr rfl)))), rfl, rfl⟩

/-- When some normal monochrome order exists, a monochrome batch is
emitted. -/
lemma bw_batch_exists (orders : List Order)
    (hne : bwOrders orders ≠ []) :
    ∃ b ∈ (process orders).batches,
      b.orders = bwOrders orders ∧ b.print_type = PrintType.BW := by
  rw [process_batches_eq]
  rw [if_neg hne]
  exact ⟨_, List.mem_append.mpr (Or.inr (List.mem_append.mpr (Or.inr
    (List.mem_singleton.mpr rfl)))), rfl, rfl⟩

/-- C5: for every input list containing at least one order of positive
priority, the first emitted batch contains all and only the orders of
positive priority (as the order-preserving filter of the input), and
every other batch carries only priority-0 orders — so no second batch
can contain the urgent orders. -/
theorem C5_urgent_first (orders : List Order)
    (h : ∃ o ∈ orders, 0 < o.priority) :
    ∃ b rest, (process orders).batches = b :: rest
      ∧ b.orders = urgentOrders orders
      ∧ (∀ o, o ∈ b.orders ↔ (o ∈ orders ∧ 0 < o.priority))
      ∧ ∀ b2 ∈ rest, ∀ o ∈ b2.orders, o.priority = 0 := by
  have hu : urgentOrders orders ≠ [] := by
    rcases h with ⟨o, ho, hp⟩
    intro hc
    have hmem : o ∈ urgentOrders orders := mem_urgentOrders.mpr ⟨ho, hp⟩
    rw [hc] at hmem
    exact List.not_mem_nil o hmem
  rw [process_batches_eq, if_neg hu, List.singleton_append]
  refine ⟨_, _, rfl, rfl, ?_, ?_⟩
  · intro o
    exact mem_urgentOrders
  · intro b2 hb2 o ho
    rcases List.mem_append.mp hb2 with h3 | h4
    · split_ifs at h3 <;>
        first
          | exact absurd h3 (List.not_mem_nil b2)
          | · simp only [List.mem_singleton] at h3
              subst h3
              exact (mem_colorOrders.mp ho).2.1
    · split_ifs at h4 <;>
        first
          | exact absurd h4 (List.not_mem_nil b2)
          | · simp only [List.mem_singleton] at h4
              subst h4
              exact (mem_bwOrders.mp ho).2.1

/-- C5 witness: the urgent-precedence claim instantiated on a
two-order input with one urgent order. -/
theorem C5_urgent_first_witness :
    ∃ b rest, (process [sampleUrgent, sampleColor]).batches = b :: rest
      ∧ b.orders = urgentOrders [sampleUrgent, sampleColor]
      ∧ (∀ o, o ∈ b.orders ↔
          (o ∈ [sampleUrgent, sampleColor] ∧ 0 < o.priority))
      ∧ ∀ b2 ∈ rest, ∀ o ∈ b2.orders, o.priority = 0 :=
  C5_urgent_first [sampleUrgent, sampleColor] (by decide)

/-- C6: when no order is urgent (all priorities 0), two input orders
share a returned batch exactly when they have the same print mode, and
every returned batch is the order-preserving filter of the input by its
own print mode — paper type and machine class play no role. -/
theorem C6_type_grouping (orders : List Order)
    (h : ∀ o ∈ orders, o.priority = 0) :
    (∀ o1 ∈ orders, ∀ o2 ∈ orders,
      ((∃ b ∈ (process orders).batches, o1 ∈ b.orders ∧ o2 ∈ b.orders)
        ↔ o1.print_type = o2.print_type))
    ∧ ∀ b ∈ (process orders).batches,
        b.orders = orders.filter fun o => decide (o.print_type = b.print_type) := by
  have hu : urgentOrders orders = [] := by
    rw [urgentOrders, List.filter_eq_nil_iff]
    intro o ho
    rw [decide_eq_true_eq, h o ho]
    omega
  have hn : normalOrders orders = orders :=
    List.filter_eq_self.mpr fun o ho => by rw [decide_eq_true_eq]; exact h o ho
  constructor
  · intro o1 h1 o2 h2
    constructor
    · rintro ⟨b, hb, ho1, ho2⟩
      rcases batch_mem_cases orders b hb with hbo | ⟨hbo, -⟩ | ⟨hbo, -⟩
      · rw [hbo, hu] at ho1
        exact absurd ho1 (List.not_mem_nil o1)
      · rw [hbo] at ho1 ho2
        rw [(mem_colorOrders.mp ho1).2.2, (mem_colorOrders.mp ho2).2.2]
      · rw [hbo] at ho1 ho2
        rw [(mem_bwOrders.mp ho1).2.2, (mem_bwOrders.mp ho2).2.2]
    · intro heq
      cases hpt : o1.print_type with
      | COLOR =>
        have ho1 : o1 ∈ colorOrders orders :=
          mem_colorOrders.mpr ⟨h1, h o1 h1, hpt⟩
        have ho2 : o2 ∈ colorOrders orders :=
          mem_colorOrders.mpr ⟨h2, h o2 h2, by rw [← heq, hpt]⟩
        rcases color_batch_exists orders
          (fun hc => by rw [hc] at ho1; exact List.not_mem_nil o1 ho1) with
          ⟨b, hb, hbo, -⟩
        exact ⟨b, hb, by rw [hbo]; exact ho1, by rw [hbo]; exact ho2⟩
      | BW =>
        have ho1 : o1 ∈ bwOrders orders :=
          mem_bwOrders.mpr ⟨h1, h o1 h1, hpt⟩
        have ho2 : o2 ∈ bwOrders orders :=
          mem_bwOrders.mpr ⟨h2, h o2 h2, by rw [← heq, hpt]⟩
        rcases bw_batch_exists orders
          (fun hc => by rw [hc] at ho1; exact List.not_mem_nil o1 ho1) with
          ⟨b, hb, hbo, -⟩
        exact ⟨b, hb, by rw [hbo]; exact ho1, by rw [hbo]; exact ho2⟩
  · intro b hb
    rcases batch_mem_cases orders b hb with hbo | ⟨hbo, hpt⟩ | ⟨hbo, hpt⟩
    · have hne := batch_orders_ne_nil orders b hb
      rw [hbo, hu] at hne
      exact absurd rfl hne
    · rw [hpt, hbo, colorOrders, hn]
    · rw [hpt, hbo, bwOrders, hn]

/-- C6 witness: the grouping claim instantiated on two normal orders of
different print modes — they share no batch. -/
theorem C6_type_grouping_witness :
    (∃ b ∈ (process [sampleColor, sampleBW]).batches,
        sampleColor ∈ b.orders ∧ sampleBW ∈ b.orders)
      ↔ sampleColor.print_type = sampleBW.print_type :=
  (C6_type_grouping [sampleColor, sampleBW] (by decide)).1
    sampleColor (by decide) sampleBW (by decide)

/-- C8: the batches are emitted as optional urgent, color and
monochrome segments in that order (each present exactly when its
partition is non-empty), the batch at position `i` carries the id
"BATCH-" followed by the zero-padded number `i + 1`, and the padding
yields the 4-digit tokens 0001, 0002, 0003. -/
theorem C8_emission_ids (orders : List Order) :
    (∃ u c m : List Batch,
      (process orders).batches = u ++ (c ++ m)
      ∧ (∀ b ∈ u, b.orders = urgentOrders orders)
      ∧ (∀ b ∈ c, b.orders = colorOrders orders)
      ∧ (∀ b ∈ m, b.orders = bwOrders orders)
      ∧ (u ≠ [] ↔ urgentOrders orders ≠ [])
      ∧ (c ≠ [] ↔ colorOrders orders ≠ [])
      ∧ (m ≠ [] ↔ bwOrders orders ≠ []))
    ∧ (∀ i : Nat, ∀ b : Batch, (process orders).batches[i]? = some b →
        b.id = "BATCH-" ++ pad4 (i + 1))
    ∧ pad4 1 = "0001" ∧ pad4 2 = "0002" ∧ pad4 3 = "0003" := by
  refine ⟨⟨_, _, _, process_batches_eq orders, ?_, ?_, ?_, ?_, ?_, ?_⟩,
    ?_, rfl, rfl, rfl⟩
  · split_ifs <;> simp
  · split_ifs <;> simp
  · split_ifs <;> simp
  · split_ifs <;> simp_all
  · split_ifs <;> simp_all
  · split_ifs <;> simp_all
  · rw [process_batches_eq]
    by_cases hu : urgentOrders orders = [] <;>
      by_cases hc : colorOrders orders = [] <;>
        by_cases hw : bwOrders orders = [] <;>
          simp only [hu, hc, hw, if_true, if_false, eq_self_iff_true,
            List.nil_append, List.append_nil] <;>
          intro i b hib <;>
          rcases i with _ | _ | _ | i <;>
          simp_all <;>
          (subst hib; rfl)

/-- C8 witness: on the three seed orders, the batch at position 1 is
the color batch and its id is BATCH- followed by the padded number 2. -/
theorem C8_emission_ids_witness :
    Batch.id { id := "BATCH-0002",
               orders := colorOrders [sampleUrgent, sampleColor, sampleBW],
               print_type := PrintType.COLOR,
               paper_type := PaperType.COATED }
      = "BATCH-" ++ pad4 (1 + 1) :=
  (C8_emission_ids [sampleUrgent, sampleColor, sampleBW]).2.1 1 _ (by decide)

/-- C9: an order appears in some returned batch exactly when it is an
input order of positive priority (urgent) or of priority 0 (normal); an
order of negative priority appears in no returned batch. -/
theorem C9_membership (orders : List Order) :
    ∀ o : Order,
      ((∃ b ∈ (process orders).batches, o ∈ b.orders) ↔
        (o ∈ orders ∧ (0 < o.priority ∨ o.priority = 0)))
      ∧ (o.priority < 0 → ¬∃ b ∈ (process orders).batches, o ∈ b.orders) := by
  intro o
  have hiff : (∃ b ∈ (process orders).batches, o ∈ b.orders) ↔
      (o ∈ orders ∧ (0 < o.priority ∨ o.priority = 0)) := by
    rw [exists_mem_batches]
    simp only [mem_urgentOrders, mem_colorOrders, mem_bwOrders]
    constructor
    · rintro (⟨hm, hp⟩ | ⟨hm, hp, -⟩ | ⟨hm, hp, -⟩)
      · exact ⟨hm, Or.inl hp⟩
      · exact ⟨hm, Or.inr hp⟩
      · exact ⟨hm, Or.inr hp⟩
    · rintro ⟨hm, hp | hp⟩
      · exact Or.inl ⟨hm, hp⟩
      · cases hpt : o.print_type with
        | COLOR => exact Or.inr (Or.inl ⟨hm, hp, rfl⟩)
        | BW => exact Or.inr (Or.inr ⟨hm, hp, rfl⟩)
  refine ⟨hiff, fun hneg hex => ?_⟩
  rcases hiff.mp hex with ⟨-, hp⟩
  omega

/-- C9 witness: the negative-priority sample order appears in no batch
even though it is in the input list. -/
theorem C9_membership_witness :
    ¬∃ b ∈ (process [sampleNegative]).batches, sampleNegative ∈ b.orders :=
  (C9_membership [sampleNegative] sampleNegative).2 (by decide)

/-- C10: `process` returns at most three batches, decomposable into an
urgent segment, a color segment and a monochrome segment of at most one
batch each. -/
theorem C10_at_most_three (orders : List Order) :
    (process orders).batches.length ≤ 3
    ∧ ∃ u c m : List Batch,
        (process orders).batches = u ++ (c ++ m)
        ∧ u.length ≤ 1 ∧ c.length ≤ 1 ∧ m.length ≤ 1
        ∧ (∀ b ∈ u, ∀ o ∈ b.orders, 0 < o.priority)
        ∧ (∀ b ∈ c, b.print_type = PrintType.COLOR
            ∧ ∀ o ∈ b.orders, o.priority = 0)
        ∧ (∀ b ∈ m, b.print_type = PrintType.BW
            ∧ ∀ o ∈ b.orders, o.priority = 0) := by
  constructor
  · rw [process_batches_eq]
    split_ifs <;> simp
  · refine ⟨_, _, _, process_batches_eq orders, ?_, ?_, ?_, ?_, ?_, ?_⟩
    · split_ifs <;> simp
    · split_ifs <;> simp
    · split_ifs <;> simp
    · split_ifs <;> simp
      all_goals exact fun o ho => (mem_urgentOrders.mp ho).2
    · split_ifs <;> simp
      all_goals exact fun o ho => (mem_colorOrders.mp ho).2.1
    · split_ifs <;> simp
      all_goals exact fun o ho => (mem_bwOrders.mp ho).2.1

/-- C10 witness: on the three seed orders the batch count is at most
three. -/
theorem C10_at_most_three_witness :
    (process [sampleUrgent, sampleColor, sampleBW]).batches.length ≤ 3 :=
  (C10_at_most_three [sampleUrgent, sampleColor, sampleBW]).1

end SmartBatching
